import Mathlib

/-!
Verification of the energy-metrics and discount-qualification engine of the
firmus-model-evaluation repository.

The embedding models the pure analysis core:
* `src/energy_analyzer.py`: `calculate_energy` (trapezoidal integrator) and
  `calculate_metrics` (comprehensive metrics), with Python floats modelled as
  exact rationals; the coefficient of variation, whose computation takes a
  square root, is modelled as a real number (`Real.sqrt` of the exact rational
  sample variance).
* `src/energy_monitor.py`: the tier-decision logic of
  `H200EnergyMonitor.qualify_for_discount` as a pure function of the measured
  coefficient of variation and average power.

Python exceptions are modelled with `Except`: `calculate_metrics` raises
`ValueError("Need at least 2 samples")` when fewer than 2 power samples are
given, which the embedding renders as `Except.error`.
-/

namespace EnergyAnalyzer

/-- `statistics.mean`: arithmetic mean of a list of (rational-modelled) floats. -/
def mean (l : List ℚ) : ℚ := l.sum / l.length

/-- Python `max` over a nonempty list (the empty case, which raises in Python,
is given the junk value 0; all uses are guarded by a nonemptiness precondition). -/
def peak : List ℚ → ℚ
  | [] => 0
  | x :: xs => xs.foldl max x

/-- `statistics.variance`: Bessel-corrected (n-1 divisor) sample variance. -/
def sampleVariance (l : List ℚ) : ℚ :=
  ((l.map fun x => (x - mean l) ^ 2).sum) / ((l.length : ℚ) - 1)

/-- `statistics.stdev`: square root of the Bessel-corrected sample variance. -/
noncomputable def stdev (l : List ℚ) : ℝ := Real.sqrt (sampleVariance l)

/-- Line 81 of `energy_analyzer.py`:
`power_stdev = statistics.stdev(power_samples) if len(power_samples) > 1 else 0.0`. -/
noncomputable def power_stdev (l : List ℚ) : ℝ :=
  if 1 < l.length then stdev l else 0

/-- Line 82 of `energy_analyzer.py`:
`power_cv = (power_stdev / avg_power) if avg_power > 1.0 else 0.0`. -/
noncomputable def power_cv (l : List ℚ) : ℝ :=
  if 1 < mean l then power_stdev l / (mean l : ℝ) else 0

/-- `EnergyMetrics` dataclass of `energy_analyzer.py`. -/
structure EnergyMetrics where
  total_energy_joules : ℚ
  tokens_generated : ℤ
  joules_per_token : ℚ
  tokens_per_joule : ℚ
  avg_power_watts : ℚ
  peak_power_watts : ℚ
  duration_seconds : ℚ
  prefill_energy_joules : ℚ
  prefill_duration_seconds : ℚ
  decode_energy_joules : ℚ
  decode_duration_seconds : ℚ
  wh_per_1k_queries : ℚ
  power_variance_cv : ℝ
  model_name : Option String
  run_id : Option String

/-- `calculate_energy(power_samples, timestamps)` of `energy_analyzer.py`
(the same trapezoidal loop appears in `H200EnergyMonitor.stop_monitoring`):
for each adjacent pair of samples, add `(power[i] + power[i+1]) / 2 * (t[i+1] - t[i])`;
fewer than 2 samples yield 0.0. -/
def calculate_energy : List ℚ → List ℚ → ℚ
  | p0 :: p1 :: ps, t0 :: t1 :: ts =>
      (p0 + p1) / 2 * (t1 - t0) + calculate_energy (p1 :: ps) (t1 :: ts)
  | _, _ => 0

/-- The body of `calculate_metrics` of `energy_analyzer.py` after the
sample-count guard has passed (lines 75-117). -/
noncomputable def calculate_metrics_core (power_samples timestamps : List ℚ)
    (tokens_generated : ℤ) (prefill_sample_count tokens_per_query : ℕ)
    (model_name run_id : Option String) : EnergyMetrics :=
  let total_energy_j := calculate_energy power_samples timestamps
  let duration := timestamps.getLastD 0 - timestamps.getD 0 0
  let avg_power := mean power_samples
  let peak_power := peak power_samples
  let cv := power_cv power_samples
  let joules_per_token :=
    if 0 < tokens_generated then total_energy_j / (tokens_generated : ℚ) else 0
  let tokens_per_joule :=
    if 0 < total_energy_j then (tokens_generated : ℚ) / total_energy_j else 0
  let wh_per_1k_queries := joules_per_token * (tokens_per_query : ℚ) * 1000 / 3600
  let prefill_energy :=
    if 0 < prefill_sample_count ∧ prefill_sample_count < power_samples.length then
      calculate_energy (power_samples.take prefill_sample_count)
        (timestamps.take prefill_sample_count)
    else 0
  let prefill_duration :=
    if 0 < prefill_sample_count ∧ prefill_sample_count < power_samples.length then
      timestamps.getD (prefill_sample_count - 1) 0 - timestamps.getD 0 0
    else 0
  { total_energy_joules := total_energy_j
    tokens_generated := tokens_generated
    joules_per_token := joules_per_token
    tokens_per_joule := tokens_per_joule
    avg_power_watts := avg_power
    peak_power_watts := peak_power
    duration_seconds := duration
    prefill_energy_joules := prefill_energy
    prefill_duration_seconds := prefill_duration
    decode_energy_joules := total_energy_j - prefill_energy
    decode_duration_seconds := duration - prefill_duration
    wh_per_1k_queries := wh_per_1k_queries
    power_variance_cv := cv
    model_name := model_name
    run_id := run_id }

/-- `calculate_metrics` of `energy_analyzer.py`: raises
`ValueError("Need at least 2 samples")` when `len(power_samples) < 2`,
otherwise computes the metrics. -/
noncomputable def calculate_metrics (power_samples timestamps : List ℚ)
    (tokens_generated : ℤ) (prefill_sample_count tokens_per_query : ℕ)
    (model_name run_id : Option String) : Except String EnergyMetrics :=
  if power_samples.length < 2 then Except.error "Need at least 2 samples"
  else Except.ok (calculate_metrics_core power_samples timestamps tokens_generated
    prefill_sample_count tokens_per_query model_name run_id)

/-- The trapezoid contribution of the interval between sample `i` and sample
`i+1`, written directly from the recorded sample and timestamp sequences. -/
def trapTerm (ps ts : List ℚ) (i : ℕ) : ℚ :=
  (ps.getD i 0 + ps.getD (i + 1) 0) / 2 * (ts.getD (i + 1) 0 - ts.getD i 0)

end EnergyAnalyzer

namespace EnergyMonitor

/-- `DiscountTier` enum of `energy_monitor.py`: Model-to-Grid pricing tiers
based on power stability. -/
inductive DiscountTier where
  | TIER_1_EFFICIENT
  | TIER_2_STANDARD
  | TIER_3_HIGH_VARIANCE
deriving DecidableEq, Repr

/-- `QualificationResult` dataclass of `energy_monitor.py`, restricted to the
numeric/decision fields (the human-readable `reasoning` string and the
pass-through `peak_power_watts` field are reporting output that the tier
decision does not consume). -/
structure QualificationResult where
  tier : DiscountTier
  discount_percentage : ℚ
  power_cv : ℚ
  avg_power_watts : ℚ
  qualified : Bool
deriving DecidableEq, Repr

/-- Decision logic of `H200EnergyMonitor.qualify_for_discount`
(lines 238-252 of `energy_monitor.py`) as a pure function of the freshly
measured coefficient of variation and average power: a priority cascade
checking tier 1 first, then tier 2, else tier 3. The surrounding sampling
loop that produces the `(power_cv, avg_power)` measurement is hardware I/O. -/
def qualify_for_discount (power_cv avg_power : ℚ) : QualificationResult :=
  if power_cv < 1/10 ∧ avg_power < 150 then
    { tier := DiscountTier.TIER_1_EFFICIENT, discount_percentage := 20,
      power_cv := power_cv, avg_power_watts := avg_power, qualified := true }
  else if power_cv < 3/20 ∧ avg_power < 200 then
    { tier := DiscountTier.TIER_2_STANDARD, discount_percentage := 10,
      power_cv := power_cv, avg_power_watts := avg_power, qualified := true }
  else
    { tier := DiscountTier.TIER_3_HIGH_VARIANCE, discount_percentage := 0,
      power_cv := power_cv, avg_power_watts := avg_power, qualified := false }

end EnergyMonitor

namespace EnergyAnalyzer

/-- Unfolding lemma: the total energy reported by the metrics core is the
trapezoidal integral of the full sample sequence. -/
theorem core_total (ps ts : List ℚ) (tg : ℤ) (k q : ℕ) (mn rid : Option String) :
    (calculate_metrics_core ps ts tg k q mn rid).total_energy_joules =
      calculate_energy ps ts := rfl

/-- Unfolding lemma: the duration is last timestamp minus first timestamp. -/
theorem core_duration (ps ts : List ℚ) (tg : ℤ) (k q : ℕ) (mn rid : Option String) :
    (calculate_metrics_core ps ts tg k q mn rid).duration_seconds =
      ts.getLastD 0 - ts.getD 0 0 := rfl

/-- Unfolding lemma: the average power is the arithmetic mean of the samples. -/
theorem core_avg (ps ts : List ℚ) (tg : ℤ) (k q : ℕ) (mn rid : Option String) :
    (calculate_metrics_core ps ts tg k q mn rid).avg_power_watts = mean ps := rfl

/-- Unfolding lemma: the peak power is the maximum of the samples. -/
theorem core_peak (ps ts : List ℚ) (tg : ℤ) (k q : ℕ) (mn rid : Option String) :
    (calculate_metrics_core ps ts tg k q mn rid).peak_power_watts = peak ps := rfl

/-- Unfolding lemma: the reported coefficient of variation. -/
theorem core_cv (ps ts : List ℚ) (tg : ℤ) (k q : ℕ) (mn rid : Option String) :
    (calculate_metrics_core ps ts tg k q mn rid).power_variance_cv = power_cv ps := rfl

/-- Unfolding lemma: joules per token with its divide-by-zero guard. -/
theorem core_jpt (ps ts : List ℚ) (tg : ℤ) (k q : ℕ) (mn rid : Option String) :
    (calculate_metrics_core ps ts tg k q mn rid).joules_per_token =
      if 0 < tg then calculate_energy ps ts / (tg : ℚ) else 0 := rfl

/-- Unfolding lemma: tokens per joule with its divide-by-zero guard. -/
theorem core_tpj (ps ts : List ℚ) (tg : ℤ) (k q : ℕ) (mn rid : Option String) :
    (calculate_metrics_core ps ts tg k q mn rid).tokens_per_joule =
      if 0 < calculate_energy ps ts then (tg : ℚ) / calculate_energy ps ts else 0 := rfl

/-- Unfolding lemma: the watt-hour projection in terms of joules per token. -/
theorem core_wh (ps ts : List ℚ) (tg : ℤ) (k q : ℕ) (mn rid : Option String) :
    (calculate_metrics_core ps ts tg k q mn rid).wh_per_1k_queries =
      (calculate_metrics_core ps ts tg k q mn rid).joules_per_token *
        (q : ℚ) * 1000 / 3600 := rfl

/-- Unfolding lemma: prefill energy under the phase-split guard. -/
theorem core_prefill_energy (ps ts : List ℚ) (tg : ℤ) (k q : ℕ) (mn rid : Option String) :
    (calculate_metrics_core ps ts tg k q mn rid).prefill_energy_joules =
      if 0 < k ∧ k < ps.length then
        calculate_energy (ps.take k) (ts.take k) else 0 := rfl

/-- Unfolding lemma: prefill duration under the phase-split guard. -/
theorem core_prefill_duration (ps ts : List ℚ) (tg : ℤ) (k q : ℕ) (mn rid : Option String) :
    (calculate_metrics_core ps ts tg k q mn rid).prefill_duration_seconds =
      if 0 < k ∧ k < ps.length then ts.getD (k - 1) 0 - ts.getD 0 0 else 0 := rfl

/-- Unfolding lemma: decode energy is total minus prefill. -/
theorem core_decode_energy (ps ts : List ℚ) (tg : ℤ) (k q : ℕ) (mn rid : Option String) :
    (calculate_metrics_core ps ts tg k q mn rid).decode_energy_joules =
      (calculate_metrics_core ps ts tg k q mn rid).total_energy_joules -
        (calculate_metrics_core ps ts tg k q mn rid).prefill_energy_joules := rfl

/-- Unfolding lemma: decode duration is duration minus prefill duration. -/
theorem core_decode_duration (ps ts : List ℚ) (tg : ℤ) (k q : ℕ) (mn rid : Option String) :
    (calculate_metrics_core ps ts tg k q mn rid).decode_duration_seconds =
      (calculate_metrics_core ps ts tg k q mn rid).duration_seconds -
        (calculate_metrics_core ps ts tg k q mn rid).prefill_duration_seconds := rfl

/-- Inversion: a successful metrics computation means the sample-count guard
passed and the result is the core computation. -/
theorem calculate_metrics_ok (ps ts : List ℚ) (tg : ℤ) (k q : ℕ) (mn rid : Option String)
    (m : EnergyMetrics) (h : calculate_metrics ps ts tg k q mn rid = Except.ok m) :
    2 ≤ ps.length ∧ m = calculate_metrics_core ps ts tg k q mn rid := by
  by_cases hl : ps.length < 2
  · rw [calculate_metrics, if_pos hl] at h
    exact absurd h (by simp)
  · rw [calculate_metrics, if_neg hl] at h
    exact ⟨Nat.le_of_not_lt hl, (Except.ok.inj h).symm⟩

/-- The recursive trapezoidal loop, written as a closed-form sum over the
interval indices, for equal-length sample and timestamp sequences. -/
theorem calculate_energy_eq_sum :
    ∀ ps ts : List ℚ, ps.length = ts.length →
      calculate_energy ps ts = ∑ i in Finset.range (ps.length - 1), trapTerm ps ts i
  | [], _, _ => by simp [calculate_energy]
  | [_], _, _ => by simp [calculate_energy]
  | _ :: _ :: _, [], h => by simp at h
  | _ :: _ :: _, [_], h => by simp at h
  | p0 :: p1 :: ps, t0 :: t1 :: ts, h => by
      have hlen : (p1 :: ps).length = (t1 :: ts).length := by simpa using h
      have ih := calculate_energy_eq_sum (p1 :: ps) (t1 :: ts) hlen
      show (p0 + p1) / 2 * (t1 - t0) + calculate_energy (p1 :: ps) (t1 :: ts) = _
      rw [ih]
      have h2 : (p0 :: p1 :: ps : List ℚ).length - 1 =
          ((p1 :: ps : List ℚ).length - 1) + 1 := by simp
      rw [h2, Finset.sum_range_succ']
      have h3 : ∀ i, trapTerm (p0 :: p1 :: ps) (t0 :: t1 :: ts) (i + 1) =
          trapTerm (p1 :: ps) (t1 :: ts) i := by
        intro i; simp [trapTerm]
      have h4 : trapTerm (p0 :: p1 :: ps) (t0 :: t1 :: ts) 0 =
          (p0 + p1) / 2 * (t1 - t0) := by
        simp [trapTerm]
      rw [h4]
      simp only [h3]
      ring

/-- Summing a mapped list equals summing its entries by index. -/
theorem map_sum_eq_sum_range (f : ℚ → ℚ) :
    ∀ l : List ℚ, (l.map f).sum = ∑ i in Finset.range l.length, f (l.getD i 0)
  | [] => by simp
  | x :: xs => by
      rw [List.map_cons, List.sum_cons, map_sum_eq_sum_range f xs,
        List.length_cons, Finset.sum_range_succ']
      simp only [List.getD_cons_succ, List.getD_cons_zero]
      ring

/-- Trapezoidal integration of a constant power trace telescopes to
`p * (last timestamp - first timestamp)`. -/
theorem calculate_energy_const (p : ℚ) :
    ∀ ps ts : List ℚ, ps.length = ts.length → (∀ x ∈ ps, x = p) →
      calculate_energy ps ts = p * (ts.getLastD 0 - ts.getD 0 0)
  | [], [], _, _ => by simp [calculate_energy]
  | [], _ :: _, h, _ => by simp at h
  | _ :: _, [], h, _ => by simp at h
  | [p0], [t0], _, _ => by simp [calculate_energy]
  | [_], _ :: _ :: _, h, _ => by simp at h
  | _ :: _ :: _, [_], h, _ => by simp at h
  | p0 :: p1 :: ps, t0 :: t1 :: ts, h, hc => by
      have hlen : (p1 :: ps).length = (t1 :: ts).length := by simpa using h
      have hc1 : ∀ x ∈ p1 :: ps, x = p := fun x hx => hc x (List.mem_cons_of_mem p0 hx)
      have ih := calculate_energy_const p (p1 :: ps) (t1 :: ts) hlen hc1
      have hp0 : p0 = p := hc p0 (by simp)
      have hp1 : p1 = p := hc p1 (by simp)
      show (p0 + p1) / 2 * (t1 - t0) + calculate_energy (p1 :: ps) (t1 :: ts) = _
      rw [ih, hp0, hp1]
      have hlast : (t0 :: t1 :: ts : List ℚ).getLastD 0 = (t1 :: ts : List ℚ).getLastD 0 := by
        simp [List.getLastD_cons]
      rw [hlast]
      have hd : (t1 :: ts : List ℚ).getD 0 0 = t1 := rfl
      rw [hd]
      have hd0 : (t0 :: t1 :: ts : List ℚ).getD 0 0 = t0 := rfl
      rw [hd0]
      ring

/-- A lower bound below the seed stays below a `foldl max`. -/
theorem le_foldl_max : ∀ (l : List ℚ) (a b : ℚ), b ≤ a → b ≤ l.foldl max a
  | [], _, _, h => h
  | x :: xs, a, b, h => le_foldl_max xs (max a x) b (le_trans h (le_max_left a x))

/-- Every member of a list is bounded by a `foldl max` over it. -/
theorem mem_le_foldl_max : ∀ (l : List ℚ) (a x : ℚ), x ∈ l → x ≤ l.foldl max a
  | [], _, x, h => absurd h (by simp)
  | y :: ys, a, x, h => by
      rcases List.mem_cons.mp h with rfl | h
      · exact le_foldl_max ys (max a x) x (le_max_right a x)
      · exact mem_le_foldl_max ys (max a y) x h

/-- Every sample is bounded by the peak (Python `max`) of the sample list. -/
theorem mem_le_peak (l : List ℚ) (x : ℚ) (h : x ∈ l) : x ≤ peak l := by
  cases l with
  | nil => simp at h
  | cons y ys =>
    rcases List.mem_cons.mp h with rfl | h
    · exact le_foldl_max ys x x le_rfl
    · exact mem_le_foldl_max ys y x h

/-- The arithmetic mean of a nonempty sample list is at most its maximum. -/
theorem mean_le_peak (l : List ℚ) (h : l ≠ []) : mean l ≤ peak l := by
  have hpos : (0 : ℚ) < l.length := by
    cases l with
    | nil => exact absurd rfl h
    | cons y ys => exact_mod_cast Nat.succ_pos ys.length
  have hsum : l.sum ≤ (l.length : ℚ) * peak l := by
    calc l.sum ≤ l.length • peak l :=
          List.sum_le_card_nsmul l (peak l) fun x hx => mem_le_peak l x hx
      _ = (l.length : ℚ) * peak l := by simp
  rw [mean, div_le_iff₀ hpos]
  linarith

/-- Reading inside the taken prefix agrees with reading the original list. -/
theorem getD_take : ∀ (l : List ℚ) (k i : ℕ) (d : ℚ), i < k →
    (l.take k).getD i d = l.getD i d
  | [], _, _, _, _ => by simp
  | _ :: _, k + 1, 0, _, _ => by simp
  | x :: xs, k + 1, i + 1, d, h => by
      simp only [List.take_cons, List.getD_cons_succ]
      exact getD_take xs k i d (Nat.lt_of_succ_lt_succ h)
  | _ :: _, 0, i, _, h => absurd h (Nat.not_lt_zero i)

/-- The arithmetic mean of a nonempty constant list is that constant. -/
theorem mean_const (p : ℚ) (l : List ℚ) (h : ∀ x ∈ l, x = p) (hne : l ≠ []) :
    mean l = p := by
  have hrep : l = List.replicate l.length p :=
    List.eq_replicate_iff.mpr ⟨rfl, h⟩
  have hpos : (0 : ℚ) < l.length := by
    cases l with
    | nil => exact absurd rfl hne
    | cons y ys => exact_mod_cast Nat.succ_pos ys.length
  rw [mean]
  nth_rewrite 1 [hrep]
  rw [List.sum_replicate, nsmul_eq_mul]
  field_simp

/-- The Bessel-corrected sample variance of a nonempty constant list is 0. -/
theorem sampleVariance_const (p : ℚ) (l : List ℚ) (h : ∀ x ∈ l, x = p)
    (hne : l ≠ []) : sampleVariance l = 0 := by
  have hm := mean_const p l h hne
  rw [sampleVariance]
  have hz : (l.map fun x => (x - mean l) ^ 2) = List.replicate l.length 0 := by
    apply List.eq_replicate_iff.mpr
    refine ⟨by simp, ?_⟩
    intro b hb
    obtain ⟨a, ha, rfl⟩ := List.mem_map.mp hb
    rw [h a ha, hm]
    ring
  rw [hz, List.sum_replicate]
  simp

/-- The reported coefficient of variation of a nonempty constant power trace
is 0 in every branch of its guards. -/
theorem power_cv_const (p : ℚ) (l : List ℚ) (h : ∀ x ∈ l, x = p) (hne : l ≠ []) :
    power_cv l = 0 := by
  rw [power_cv]
  split
  · rw [power_stdev]
    split
    · rw [stdev, sampleVariance_const p l h hne]
      simp
    · simp
  · rfl

end EnergyAnalyzer

open EnergyAnalyzer EnergyMonitor

/-- Claim C1: the discount-qualification routine assigns tiers by a priority
cascade over the freshly measured `(CV, avg_power)` pair: CV < 0.10 and
avg_power < 150 gives Tier 1 with 20% discount and `qualified = true`;
otherwise CV < 0.15 and avg_power < 200 gives Tier 2 with 10% discount and
`qualified = true`; otherwise Tier 3 with 0% discount and
`qualified = false`.  The four concrete inputs of the spec land in tiers
1, 2, 3, 3 respectively, and any measurement satisfying both the tier-1 and
the tier-2 bounds lands in Tier 1. -/
theorem claim_C1_tier_cascade (cv avg : ℚ) :
    (cv < 1/10 ∧ avg < 150 →
      qualify_for_discount cv avg =
        { tier := DiscountTier.TIER_1_EFFICIENT, discount_percentage := 20,
          power_cv := cv, avg_power_watts := avg, qualified := true })
  ∧ (¬(cv < 1/10 ∧ avg < 150) → cv < 3/20 ∧ avg < 200 →
      qualify_for_discount cv avg =
        { tier := DiscountTier.TIER_2_STANDARD, discount_percentage := 10,
          power_cv := cv, avg_power_watts := avg, qualified := true })
  ∧ (¬(cv < 1/10 ∧ avg < 150) → ¬(cv < 3/20 ∧ avg < 200) →
      qualify_for_discount cv avg =
        { tier := DiscountTier.TIER_3_HIGH_VARIANCE, discount_percentage := 0,
          power_cv := cv, avg_power_watts := avg, qualified := false })
  ∧ (cv < 1/10 ∧ avg < 150 → cv < 3/20 ∧ avg < 200 →
      (qualify_for_discount cv avg).tier = DiscountTier.TIER_1_EFFICIENT)
  ∧ ((qualify_for_discount (1/20) 100).tier = DiscountTier.TIER_1_EFFICIENT
      ∧ (qualify_for_discount (1/20) 100).discount_percentage = 20
      ∧ (qualify_for_discount (1/20) 100).qualified = true)
  ∧ ((qualify_for_discount (3/25) 180).tier = DiscountTier.TIER_2_STANDARD
      ∧ (qualify_for_discount (3/25) 180).discount_percentage = 10
      ∧ (qualify_for_discount (3/25) 180).qualified = true)
  ∧ ((qualify_for_discount (1/5) 100).tier = DiscountTier.TIER_3_HIGH_VARIANCE
      ∧ (qualify_for_discount (1/5) 100).discount_percentage = 0
      ∧ (qualify_for_discount (1/5) 100).qualified = false)
  ∧ ((qualify_for_discount (1/20) 250).tier = DiscountTier.TIER_3_HIGH_VARIANCE
      ∧ (qualify_for_discount (1/20) 250).discount_percentage = 0
      ∧ (qualify_for_discount (1/20) 250).qualified = false) := by
  refine ⟨fun h => ?_, fun h1 h2 => ?_, fun h1 h2 => ?_, fun h1 _ => ?_, ?_, ?_, ?_, ?_⟩
  · rw [qualify_for_discount, if_pos h]
  · rw [qualify_for_discount, if_neg h1, if_pos h2]
  · rw [qualify_for_discount, if_neg h1, if_neg h2]
  · rw [qualify_for_discount, if_pos h1]
  · exact ⟨by norm_num [qualify_for_discount], by norm_num [qualify_for_discount],
      by norm_num [qualify_for_discount]⟩
  · exact ⟨by norm_num [qualify_for_discount], by norm_num [qualify_for_discount],
      by norm_num [qualify_for_discount]⟩
  · exact ⟨by norm_num [qualify_for_discount], by norm_num [qualify_for_discount],
      by norm_num [qualify_for_discount]⟩
  · exact ⟨by norm_num [qualify_for_discount], by norm_num [qualify_for_discount],
      by norm_num [qualify_for_discount]⟩

/-- Witness for claim C1 at the concrete measurement `(cv, avg) = (0.05, 100)`,
discharging the tier-1 hypothesis. -/
theorem claim_C1_tier_cascade_witness :
    ((1 : ℚ)/20 < 1/10 ∧ (100 : ℚ) < 150) ∧
      qualify_for_discount (1/20) 100 =
        { tier := DiscountTier.TIER_1_EFFICIENT, discount_percentage := 20,
          power_cv := 1/20, avg_power_watts := 100, qualified := true } :=
  ⟨by norm_num, (claim_C1_tier_cascade (1/20) 100).1 (by norm_num)⟩

/-- Claim C2: for every pair of equal-length lists with at least 2 samples,
the energy integrator returns the trapezoidal sum over consecutive pairs
`(power[i] + power[i+1]) / 2 * (t[i+1] - t[i])`; any two-point sample set
`[(t0,p0),(t1,p1)]` yields exactly `(p0+p1)/2 * (t1-t0)`; and negative power
values are preserved rather than clamped, as the concrete all-negative trace
`[-5, -3]` over timestamps `[0, 2]` integrates to `-8`. -/
theorem claim_C2_trapezoidal_integrator (ps ts : List ℚ)
    (hlen : ps.length = ts.length) (h2 : 2 ≤ ps.length) :
    (calculate_energy ps ts = ∑ i in Finset.range (ps.length - 1), trapTerm ps ts i)
  ∧ (∀ t0 p0 t1 p1 : ℚ,
      calculate_energy [p0, p1] [t0, t1] = (p0 + p1) / 2 * (t1 - t0))
  ∧ calculate_energy [-5, -3] [0, 2] = -8 := by
  refine ⟨calculate_energy_eq_sum ps ts hlen, fun t0 p0 t1 p1 => ?_,
    by norm_num [calculate_energy]⟩
  show (p0 + p1) / 2 * (t1 - t0) + calculate_energy [p1] [t1] = _
  show (p0 + p1) / 2 * (t1 - t0) + 0 = _
  ring

/-- Witness for claim C2 on the two-sample negative-power trace
`ps = [-5, -3]`, `ts = [0, 2]`. -/
theorem claim_C2_trapezoidal_integrator_witness :
    (([-5, -3] : List ℚ).length = ([0, 2] : List ℚ).length
      ∧ 2 ≤ ([-5, -3] : List ℚ).length)
  ∧ ((calculate_energy [-5, -3] [0, 2] =
        ∑ i in Finset.range (([-5, -3] : List ℚ).length - 1), trapTerm [-5, -3] [0, 2] i)
    ∧ (∀ t0 p0 t1 p1 : ℚ,
        calculate_energy [p0, p1] [t0, t1] = (p0 + p1) / 2 * (t1 - t0))
    ∧ calculate_energy [-5, -3] [0, 2] = -8) :=
  ⟨⟨by decide, by decide⟩,
    claim_C2_trapezoidal_integrator [-5, -3] [0, 2] (by decide) (by decide)⟩

/-- Claim C3: every successful metrics computation satisfies the additive
invariant `prefill_energy + decode_energy = total_energy` (exactly, in the
rational model of float arithmetic) and
`decode_duration = duration - prefill_duration`. -/
theorem claim_C3_additive_invariant (ps ts : List ℚ) (tg : ℤ) (k q : ℕ)
    (mn rid : Option String) (m : EnergyMetrics)
    (h : calculate_metrics ps ts tg k q mn rid = Except.ok m) :
    m.prefill_energy_joules + m.decode_energy_joules = m.total_energy_joules ∧
    m.decode_duration_seconds = m.duration_seconds - m.prefill_duration_seconds := by
  obtain ⟨-, rfl⟩ := calculate_metrics_ok ps ts tg k q mn rid m h
  rw [core_decode_energy, core_decode_duration]
  exact ⟨by ring, rfl⟩

/-- Witness for claim C3 on a three-sample session split after 2 prefill
samples. -/
theorem claim_C3_additive_invariant_witness :
    (calculate_metrics [100, 120, 110] [0, 1, 2] 10 2 100 none none =
      Except.ok (calculate_metrics_core [100, 120, 110] [0, 1, 2] 10 2 100 none none))
  ∧ ((calculate_metrics_core [100, 120, 110] [0, 1, 2] 10 2 100 none none).prefill_energy_joules
        + (calculate_metrics_core [100, 120, 110] [0, 1, 2] 10 2 100 none none).decode_energy_joules
        = (calculate_metrics_core [100, 120, 110] [0, 1, 2] 10 2 100 none none).total_energy_joules
    ∧ (calculate_metrics_core [100, 120, 110] [0, 1, 2] 10 2 100 none none).decode_duration_seconds
        = (calculate_metrics_core [100, 120, 110] [0, 1, 2] 10 2 100 none none).duration_seconds
          - (calculate_metrics_core [100, 120, 110] [0, 1, 2] 10 2 100 none none).prefill_duration_seconds) :=
  ⟨rfl, claim_C3_additive_invariant [100, 120, 110] [0, 1, 2] 10 2 100 none none
    (calculate_metrics_core [100, 120, 110] [0, 1, 2] 10 2 100 none none) rfl⟩

/-- Claim C6 counterexample: the length-equality half of the stated
precondition is not enforced.  With 2 power samples but 3 timestamps the
computation succeeds instead of raising. -/
theorem claim_C6_counterexample :
    calculate_metrics [1, 2] [0, 1, 2] 1 0 100 none none =
      Except.ok (calculate_metrics_core [1, 2] [0, 1, 2] 1 0 100 none none)
  ∧ ([1, 2] : List ℚ).length ≠ ([0, 1, 2] : List ℚ).length :=
  ⟨rfl, by decide⟩

/-- Claim C6 (amended): the metrics computation raises the
insufficient-samples error exactly when fewer than 2 power samples are
given — and then never returns metrics — while the length of the timestamp
list is not validated at all. -/
theorem claim_C6_insufficient_samples (ps ts : List ℚ) (tg : ℤ) (k q : ℕ)
    (mn rid : Option String) :
    (ps.length < 2 →
      calculate_metrics ps ts tg k q mn rid = Except.error "Need at least 2 samples")
  ∧ (2 ≤ ps.length →
      calculate_metrics ps ts tg k q mn rid =
        Except.ok (calculate_metrics_core ps ts tg k q mn rid)) := by
  constructor
  · intro h
    rw [calculate_metrics, if_pos h]
  · intro h
    rw [calculate_metrics, if_neg (Nat.not_lt.mpr h)]

/-- Witness for (amended) claim C6 on a one-sample session. -/
theorem claim_C6_insufficient_samples_witness :
    ([5] : List ℚ).length < 2 ∧
      calculate_metrics [5] [0] 1 0 100 none none =
        Except.error "Need at least 2 samples" :=
  ⟨by decide, (claim_C6_insufficient_samples [5] [0] 1 0 100 none none).1 (by decide)⟩

/-- Claim C7: with `tokens_generated = 0` both per-token rates are the
degenerate value 0 and no error occurs (the computation still returns
`Except.ok`); in general `joules_per_token` is `total_energy / tokens`
exactly when `tokens_generated > 0` (else 0) and `tokens_per_joule` is
`tokens / total_energy` exactly when `total_energy > 0` (else 0). -/
theorem claim_C7_division_guards (ps ts : List ℚ) (tg : ℤ) (k q : ℕ)
    (mn rid : Option String) (m : EnergyMetrics)
    (h : calculate_metrics ps ts tg k q mn rid = Except.ok m) :
    (tg = 0 → m.joules_per_token = 0 ∧ m.tokens_per_joule = 0)
  ∧ (0 < tg → m.joules_per_token = m.total_energy_joules / (tg : ℚ))
  ∧ (¬0 < tg → m.joules_per_token = 0)
  ∧ (0 < m.total_energy_joules →
      m.tokens_per_joule = (tg : ℚ) / m.total_energy_joules)
  ∧ (¬0 < m.total_energy_joules → m.tokens_per_joule = 0) := by
  obtain ⟨-, rfl⟩ := calculate_metrics_ok ps ts tg k q mn rid m h
  simp only [core_jpt, core_tpj, core_total]
  refine ⟨fun h0 => ?_, fun hpos => ?_, fun hneg => ?_, fun hpos => ?_, fun hneg => ?_⟩
  · subst h0
    simp
  · rw [if_pos hpos]
  · rw [if_neg hneg]
  · rw [if_pos hpos]
  · rw [if_neg hneg]

/-- Witness for claim C7 with zero tokens generated. -/
theorem claim_C7_division_guards_witness :
    (calculate_metrics [100, 100] [0, 1] 0 0 100 none none =
      Except.ok (calculate_metrics_core [100, 100] [0, 1] 0 0 100 none none))
  ∧ (((0 : ℤ) = 0 →
        (calculate_metrics_core [100, 100] [0, 1] 0 0 100 none none).joules_per_token = 0
      ∧ (calculate_metrics_core [100, 100] [0, 1] 0 0 100 none none).tokens_per_joule = 0)
    ∧ ((0 : ℤ) < 0 →
        (calculate_metrics_core [100, 100] [0, 1] 0 0 100 none none).joules_per_token =
          (calculate_metrics_core [100, 100] [0, 1] 0 0 100 none none).total_energy_joules /
            ((0 : ℤ) : ℚ))
    ∧ (¬(0 : ℤ) < 0 →
        (calculate_metrics_core [100, 100] [0, 1] 0 0 100 none none).joules_per_token = 0)
    ∧ (0 < (calculate_metrics_core [100, 100] [0, 1] 0 0 100 none none).total_energy_joules →
        (calculate_metrics_core [100, 100] [0, 1] 0 0 100 none none).tokens_per_joule =
          ((0 : ℤ) : ℚ) /
            (calculate_metrics_core [100, 100] [0, 1] 0 0 100 none none).total_energy_joules)
    ∧ (¬0 < (calculate_metrics_core [100, 100] [0, 1] 0 0 100 none none).total_energy_joules →
        (calculate_metrics_core [100, 100] [0, 1] 0 0 100 none none).tokens_per_joule = 0)) :=
  ⟨rfl, claim_C7_division_guards [100, 100] [0, 1] 0 0 100 none none
    (calculate_metrics_core [100, 100] [0, 1] 0 0 100 none none) rfl⟩

/-- Claim C8: every successful metrics computation reports
`wh_per_1k_queries = joules_per_token * tokens_per_query * 1000 / 3600`,
for every value of the configurable `tokens_per_query` parameter. -/
theorem claim_C8_wh_projection (ps ts : List ℚ) (tg : ℤ) (k q : ℕ)
    (mn rid : Option String) (m : EnergyMetrics)
    (h : calculate_metrics ps ts tg k q mn rid = Except.ok m) :
    m.wh_per_1k_queries = m.joules_per_token * (q : ℚ) * 1000 / 3600 := by
  obtain ⟨-, rfl⟩ := calculate_metrics_ok ps ts tg k q mn rid m h
  exact core_wh ps ts tg k q mn rid

/-- Witness for claim C8 at the default `tokens_per_query = 100`. -/
theorem claim_C8_wh_projection_witness :
    (calculate_metrics [100, 100] [0, 1] 10 0 100 none none =
      Except.ok (calculate_metrics_core [100, 100] [0, 1] 10 0 100 none none))
  ∧ (calculate_metrics_core [100, 100] [0, 1] 10 0 100 none none).wh_per_1k_queries =
      (calculate_metrics_core [100, 100] [0, 1] 10 0 100 none none).joules_per_token *
        ((100 : ℕ) : ℚ) * 1000 / 3600 :=
  ⟨rfl, claim_C8_wh_projection [100, 100] [0, 1] 10 0 100 none none
    (calculate_metrics_core [100, 100] [0, 1] 10 0 100 none none) rfl⟩

/-- Claim C10: every successful metrics computation reports a peak power at
least as large as the average power, since the maximum of the samples bounds
their arithmetic mean. -/
theorem claim_C10_peak_ge_avg (ps ts : List ℚ) (tg : ℤ) (k q : ℕ)
    (mn rid : Option String) (m : EnergyMetrics)
    (h : calculate_metrics ps ts tg k q mn rid = Except.ok m) :
    m.avg_power_watts ≤ m.peak_power_watts := by
  obtain ⟨hlen, rfl⟩ := calculate_metrics_ok ps ts tg k q mn rid m h
  rw [core_avg, core_peak]
  apply mean_le_peak
  intro hnil
  rw [hnil] at hlen
  simp at hlen

/-- Witness for claim C10 on a two-sample session with distinct powers. -/
theorem claim_C10_peak_ge_avg_witness :
    (calculate_metrics [100, 150] [0, 1] 10 0 100 none none =
      Except.ok (calculate_metrics_core [100, 150] [0, 1] 10 0 100 none none))
  ∧ (calculate_metrics_core [100, 150] [0, 1] 10 0 100 none none).avg_power_watts ≤
      (calculate_metrics_core [100, 150] [0, 1] 10 0 100 none none).peak_power_watts :=
  ⟨rfl, claim_C10_peak_ge_avg [100, 150] [0, 1] 10 0 100 none none
    (calculate_metrics_core [100, 150] [0, 1] 10 0 100 none none) rfl⟩

/-- Claim C5: the reported power coefficient of variation equals the
Bessel-corrected (n-1 divisor) sample standard deviation of the power values
divided by their arithmetic mean when that mean exceeds 1.0, and equals 0
when the mean is at most 1.0. -/
theorem claim_C5_power_cv (ps ts : List ℚ) (tg : ℤ) (k q : ℕ)
    (mn rid : Option String) (m : EnergyMetrics)
    (h : calculate_metrics ps ts tg k q mn rid = Except.ok m) :
    m.power_variance_cv =
      if 1 < mean ps then
        Real.sqrt (((∑ i in Finset.range ps.length, (ps.getD i 0 - mean ps) ^ 2) /
          ((ps.length : ℚ) - 1) : ℚ)) / (mean ps : ℝ)
      else 0 := by
  obtain ⟨h2, rfl⟩ := calculate_metrics_ok ps ts tg k q mn rid m h
  have hlen : 1 < ps.length := h2
  rw [core_cv, power_cv, power_stdev, if_pos hlen, stdev, sampleVariance,
    map_sum_eq_sum_range (fun x => (x - mean ps) ^ 2) ps]

/-- Witness for claim C5 on the trace `[2, 4]` whose mean is 3. -/
theorem claim_C5_power_cv_witness :
    (calculate_metrics [2, 4] [0, 1] 1 0 100 none none =
      Except.ok (calculate_metrics_core [2, 4] [0, 1] 1 0 100 none none))
  ∧ (calculate_metrics_core [2, 4] [0, 1] 1 0 100 none none).power_variance_cv =
      (if 1 < mean [2, 4] then
        Real.sqrt (((∑ i in Finset.range ([2, 4] : List ℚ).length,
            (([2, 4] : List ℚ).getD i 0 - mean [2, 4]) ^ 2) /
          ((([2, 4] : List ℚ).length : ℚ) - 1) : ℚ)) / (mean [2, 4] : ℝ)
      else 0) :=
  ⟨rfl, claim_C5_power_cv [2, 4] [0, 1] 1 0 100 none none
    (calculate_metrics_core [2, 4] [0, 1] 1 0 100 none none) rfl⟩

/-- Claim C9: a constant power trace (every sample equal to `p`) over
strictly increasing timestamps yields a coefficient of variation of 0 and a
total energy of exactly `p * duration`, where the duration is last timestamp
minus first timestamp. -/
theorem claim_C9_constant_trace (ps ts : List ℚ) (p : ℚ) (tg : ℤ) (k q : ℕ)
    (mn rid : Option String) (m : EnergyMetrics)
    (hconst : ∀ x ∈ ps, x = p) (hlen : ps.length = ts.length)
    (hmono : List.Chain' (fun a b => a < b) ts)
    (h : calculate_metrics ps ts tg k q mn rid = Except.ok m) :
    m.power_variance_cv = 0 ∧ m.total_energy_joules = p * m.duration_seconds := by
  obtain ⟨h2, rfl⟩ := calculate_metrics_ok ps ts tg k q mn rid m h
  have hne : ps ≠ [] := by
    intro hnil
    rw [hnil] at h2
    simp at h2
  constructor
  · rw [core_cv]
    exact power_cv_const p ps hconst hne
  · rw [core_total, core_duration]
    exact calculate_energy_const p ps ts hlen hconst

/-- Witness for claim C9 on the constant trace `[5, 5]` over `[0, 1]`. -/
theorem claim_C9_constant_trace_witness :
    ((∀ x ∈ ([5, 5] : List ℚ), x = 5)
      ∧ ([5, 5] : List ℚ).length = ([0, 1] : List ℚ).length
      ∧ List.Chain' (fun a b => a < b) ([0, 1] : List ℚ)
      ∧ calculate_metrics [5, 5] [0, 1] 1 0 100 none none =
          Except.ok (calculate_metrics_core [5, 5] [0, 1] 1 0 100 none none))
  ∧ ((calculate_metrics_core [5, 5] [0, 1] 1 0 100 none none).power_variance_cv = 0
    ∧ (calculate_metrics_core [5, 5] [0, 1] 1 0 100 none none).total_energy_joules =
        5 * (calculate_metrics_core [5, 5] [0, 1] 1 0 100 none none).duration_seconds) :=
  ⟨⟨by simp, rfl, by norm_num [List.chain'_cons], rfl⟩,
    claim_C9_constant_trace [5, 5] [0, 1] 5 1 0 100 none none
      (calculate_metrics_core [5, 5] [0, 1] 1 0 100 none none)
      (by simp) rfl (by norm_num [List.chain'_cons]) rfl⟩

/-- Claim C4: when `0 < prefill_sample_count < len(samples)`, prefill energy
is the trapezoidal integral over `samples[0:prefill_sample_count]` using the
actual recorded timestamps, prefill duration is
`timestamps[prefill_sample_count-1] - timestamps[0]`, and decode is the
remainder, covering exactly the intervals from index
`prefill_sample_count - 1` on, so no sample interval is double counted; when
the count is 0 or out of range, the prefill fields are 0 and all
energy/duration is attributed to decode. -/
theorem claim_C4_phase_attribution (ps ts : List ℚ) (tg : ℤ) (k q : ℕ)
    (mn rid : Option String) (m : EnergyMetrics)
    (hlen : ps.length = ts.length)
    (h : calculate_metrics ps ts tg k q mn rid = Except.ok m) :
    (0 < k → k < ps.length →
        m.prefill_energy_joules = ∑ i in Finset.range (k - 1), trapTerm ps ts i
      ∧ m.prefill_duration_seconds = ts.getD (k - 1) 0 - ts.getD 0 0
      ∧ m.decode_energy_joules =
          ∑ i in Finset.Ico (k - 1) (ps.length - 1), trapTerm ps ts i
      ∧ m.decode_duration_seconds = m.duration_seconds - m.prefill_duration_seconds)
  ∧ (¬(0 < k ∧ k < ps.length) →
        m.prefill_energy_joules = 0 ∧ m.prefill_duration_seconds = 0
      ∧ m.decode_energy_joules = m.total_energy_joules
      ∧ m.decode_duration_seconds = m.duration_seconds) := by
  obtain ⟨-, rfl⟩ := calculate_metrics_ok ps ts tg k q mn rid m h
  constructor
  · intro hk0 hklen
    have hcond : 0 < k ∧ k < ps.length := ⟨hk0, hklen⟩
    have hkle : k ≤ ps.length := le_of_lt hklen
    have htake_len : (ps.take k).length = (ts.take k).length := by
      simp [List.length_take, hlen]
    have hlen_take : (ps.take k).length = k := by
      simp [List.length_take, Nat.min_eq_left hkle]
    have hpre : calculate_energy (ps.take k) (ts.take k)
        = ∑ i in Finset.range (k - 1), trapTerm ps ts i := by
      rw [calculate_energy_eq_sum _ _ htake_len, hlen_take]
      apply Finset.sum_congr rfl
      intro i hi
      have hik : i < k - 1 := Finset.mem_range.mp hi
      have hik' : i < k := by omega
      have hi1 : i + 1 < k := by omega
      rw [trapTerm, trapTerm, getD_take ps k i 0 hik', getD_take ps k (i + 1) 0 hi1,
        getD_take ts k i 0 hik', getD_take ts k (i + 1) 0 hi1]
    refine ⟨?_, ?_, ?_, core_decode_duration ps ts tg k q mn rid⟩
    · rw [core_prefill_energy, if_pos hcond, hpre]
    · rw [core_prefill_duration, if_pos hcond]
    · rw [core_decode_energy, core_total, core_prefill_energy, if_pos hcond, hpre,
        calculate_energy_eq_sum ps ts hlen]
      have hsplit : (∑ i in Finset.range (k - 1), trapTerm ps ts i)
          + ∑ i in Finset.Ico (k - 1) (ps.length - 1), trapTerm ps ts i
          = ∑ i in Finset.range (ps.length - 1), trapTerm ps ts i := by
        rw [Finset.range_eq_Ico]
        exact Finset.sum_Ico_consecutive _ (Nat.zero_le _) (by omega)
      linarith
  · intro hncond
    refine ⟨?_, ?_, ?_, ?_⟩
    · rw [core_prefill_energy, if_neg hncond]
    · rw [core_prefill_duration, if_neg hncond]
    · rw [core_decode_energy, core_prefill_energy, if_neg hncond, sub_zero]
    · rw [core_decode_duration, core_prefill_duration, if_neg hncond, sub_zero]

/-- Witness for claim C4 on a three-sample session split after 2 prefill
samples. -/
theorem claim_C4_phase_attribution_witness :
    (([100, 120, 110] : List ℚ).length = ([0, 1, 2] : List ℚ).length
      ∧ calculate_metrics [100, 120, 110] [0, 1, 2] 10 2 100 none none =
          Except.ok (calculate_metrics_core [100, 120, 110] [0, 1, 2] 10 2 100 none none))
  ∧ ((0 < 2 → 2 < ([100, 120, 110] : List ℚ).length →
        (calculate_metrics_core [100, 120, 110] [0, 1, 2] 10 2 100 none none).prefill_energy_joules
          = ∑ i in Finset.range (2 - 1), trapTerm [100, 120, 110] [0, 1, 2] i
      ∧ (calculate_metrics_core [100, 120, 110] [0, 1, 2] 10 2 100 none none).prefill_duration_seconds
          = ([0, 1, 2] : List ℚ).getD (2 - 1) 0 - ([0, 1, 2] : List ℚ).getD 0 0
      ∧ (calculate_metrics_core [100, 120, 110] [0, 1, 2] 10 2 100 none none).decode_energy_joules
          = ∑ i in Finset.Ico (2 - 1) (([100, 120, 110] : List ℚ).length - 1),
              trapTerm [100, 120, 110] [0, 1, 2] i
      ∧ (calculate_metrics_core [100, 120, 110] [0, 1, 2] 10 2 100 none none).decode_duration_seconds
          = (calculate_metrics_core [100, 120, 110] [0, 1, 2] 10 2 100 none none).duration_seconds
            - (calculate_metrics_core [100, 120, 110] [0, 1, 2] 10 2 100 none none).prefill_duration_seconds)
    ∧ (¬(0 < 2 ∧ 2 < ([100, 120, 110] : List ℚ).length) →
        (calculate_metrics_core [100, 120, 110] [0, 1, 2] 10 2 100 none none).prefill_energy_joules = 0
      ∧ (calculate_metrics_core [100, 120, 110] [0, 1, 2] 10 2 100 none none).prefill_duration_seconds = 0
      ∧ (calculate_metrics_core [100, 120, 110] [0, 1, 2] 10 2 100 none none).decode_energy_joules
          = (calculate_metrics_core [100, 120, 110] [0, 1, 2] 10 2 100 none none).total_energy_joules
      ∧ (calculate_metrics_core [100, 120, 110] [0, 1, 2] 10 2 100 none none).decode_duration_seconds
          = (calculate_metrics_core [100, 120, 110] [0, 1, 2] 10 2 100 none none).duration_seconds)) :=
  ⟨⟨rfl, rfl⟩, claim_C4_phase_attribution [100, 120, 110] [0, 1, 2] 10 2 100 none none
    (calculate_metrics_core [100, 120, 110] [0, 1, 2] 10 2 100 none none) rfl rfl⟩
